import Mathlib

/-!
Verification of the `step05/agent.py` podcast pipeline.

The reproducible logic of the repository is the `podcast_speaker` tool:
it builds one speech-synthesis request, extracts the inline audio payload
from the response through nested presence checks, wraps the raw PCM bytes
in a WAV container using Python's `wave` module (mono, 16-bit, 24000 Hz),
stores the container as an artifact named "podcast.wav" with media type
"audio/wav", and returns a status dictionary.

Bytes are modelled as `Nat` values below 256; byte strings as `List Nat`.
External capabilities (the synthesis service, the fetch tool) are modelled
as function parameters so the tool's behaviour is a pure function of the
transcript and the capability's responses.
-/

/-- Little-endian encoding of a 16-bit field, as the `struct` module's `<H`. -/
def u16le (n : Nat) : List Nat :=
  [n % 256, n / 256 % 256]

/-- Little-endian encoding of a 32-bit field, as the `struct` module's `<L`. -/
def u32le (n : Nat) : List Nat :=
  [n % 256, n / 256 % 256, n / (256 ^ 2) % 256, n / (256 ^ 3) % 256]

/-- The bytes Python's `wave` module emits for a mono/stereo PCM stream with
the given channel count, sample width (bytes) and frame rate, once the
header has been patched at close time: a 44-byte RIFF/WAVE header whose two
size fields reflect the actual number of data bytes written, followed by the
data verbatim.  Mirrors `Wave_write._write_header` plus `_patchheader` in
CPython's `wave.py`. -/
def wave_write (nchannels sampwidth framerate : Nat) (data : List Nat) : List Nat :=
  [0x52, 0x49, 0x46, 0x46] ++ u32le (36 + data.length) ++
  [0x57, 0x41, 0x56, 0x45] ++
  [0x66, 0x6D, 0x74, 0x20] ++ u32le 16 ++
  u16le 1 ++
  u16le nchannels ++
  u32le framerate ++
  u32le (nchannels * framerate * sampwidth) ++
  u16le (nchannels * sampwidth) ++
  u16le (sampwidth * 8) ++
  [0x64, 0x61, 0x74, 0x61] ++ u32le data.length ++
  data

/-- The WAV container `podcast_speaker` builds: `wave.open` with
`setnchannels(1)`, `setsampwidth(2)`, `setframerate(24000)` and one
`writeframes(audio_content)` call. -/
def wavBytes (data : List Nat) : List Nat :=
  wave_write 1 2 24000 data

/-- Reads the 16-bit little-endian field at byte offset `i` of a WAV file. -/
def u16leAt (b : List Nat) (i : Nat) : Nat :=
  b.getD i 0 + 256 * b.getD (i + 1) 0

/-- Reads the 32-bit little-endian field at byte offset `i` of a WAV file. -/
def u32leAt (b : List Nat) (i : Nat) : Nat :=
  b.getD i 0 + 256 * b.getD (i + 1) 0 + 256 ^ 2 * b.getD (i + 2) 0 +
    256 ^ 3 * b.getD (i + 3) 0

/-- Channel count declared by a standard 44-byte-header WAV file (offset 22). -/
def wavNumChannels (b : List Nat) : Nat := u16leAt b 22

/-- Frame rate declared by a standard 44-byte-header WAV file (offset 24). -/
def wavFrameRate (b : List Nat) : Nat := u32leAt b 24

/-- Bits per sample declared by a standard 44-byte-header WAV file (offset 34). -/
def wavBitsPerSample (b : List Nat) : Nat := u16leAt b 34

/-- Length of the data chunk declared at offset 40 of the header. -/
def wavDataLen (b : List Nat) : Nat := u32leAt b 40

/-- The data section: everything past the fixed-size 44-byte header. -/
def wavData (b : List Nat) : List Nat := b.drop 44

/-- `types.Blob`: the inline-data object; its `data` field is optional bytes. -/
structure Blob where
  data : Option (List Nat)
deriving DecidableEq

/-- `types.Part` of a candidate's content: may hold inline data. -/
structure RespPart where
  inline_data : Option Blob
deriving DecidableEq

/-- `types.Content`: its `parts` field is an optional list (Python treats
`None` and the empty list alike under truthiness). -/
structure RespContent where
  parts : Option (List RespPart)
deriving DecidableEq

/-- A response candidate with an optional `content`. -/
structure Candidate where
  content : Option RespContent
deriving DecidableEq

/-- `GenerateContentResponse`: an optional list of candidates. -/
structure Response where
  candidates : Option (List Candidate)
deriving DecidableEq

/-- The nested presence checks of `podcast_speaker` (agent.py lines 64-78):
`audio_content` is set only when the response has a truthy candidate list,
the first candidate has content, the content has a truthy parts list, the
first part has an inline-data object, and that object's `data` field is not
`None`. -/
def extract_audio (r : Response) : Option (List Nat) :=
  match r.candidates with
  | some (c :: _) =>
    match c.content with
    | some ct =>
      match ct.parts with
      | some (p :: _) =>
        match p.inline_data with
        | some blob => blob.data
        | none => none
      | _ => none
    | none => none
  | _ => none

/-- The synthesis request `podcast_speaker` constructs: model name, prompt
(the fixed preamble with the script appended), response modalities and the
speaker-to-prebuilt-voice bindings of the multi-speaker voice config. -/
structure SynthRequest where
  model : String
  contents : String
  response_modalities : List String
  speaker_voice_configs : List (String × String)
deriving DecidableEq

/-- The fixed instructional preamble of the prompt (agent.py line 35):
"have two people speak in a bright, crisp tone". -/
def promptPreamble : String :=
  "明るくハキハキとしたトーンで2人で会話をしてください。\n"

/-- The request built by `podcast_speaker` for a given script
(agent.py lines 33-62). -/
def build_request (script : String) : SynthRequest :=
  { model := "gemini-2.5-flash-preview-tts"
  , contents := promptPreamble ++ script
  , response_modalities := ["AUDIO"]
  , speaker_voice_configs := [("Speaker 1", "Puck"), ("Speaker 2", "Zephyr")] }

/-- One `tool_context.save_artifact` invocation: filename, bytes, media type. -/
structure ArtifactCall where
  filename : String
  data : List Nat
  mime_type : String
deriving DecidableEq

/-- Everything observable about one `podcast_speaker` invocation: the
synthesis requests issued, the artifact-store calls made, and the returned
dictionary (an ordered list of key/value pairs, as the Python dict literal). -/
structure SpeakerOutcome where
  requests : List SynthRequest
  artifacts : List ArtifactCall
  result : List (String × String)
deriving DecidableEq

/-- `podcast_speaker` (agent.py lines 24-97) as a function of the script and
of the synthesis capability `synth`.  It issues exactly one request, runs the
nested extraction, and either returns the failure dictionary with no side
effects, or wraps the payload in a WAV container, stores it once under
"podcast.wav" with media type "audio/wav", and returns the success
dictionary. -/
def podcast_speaker (script : String) (synth : SynthRequest → Response) :
    SpeakerOutcome :=
  let req := build_request script
  match extract_audio (synth req) with
  | none =>
    { requests := [req]
    , artifacts := []
    , result := [("status", "failure"),
                 ("detail", "failed to generate podcast audio")] }
  | some audio_content =>
    { requests := [req]
    , artifacts := [⟨"podcast.wav", wavBytes audio_content, "audio/wav"⟩]
    , result := [("status", "success"),
                 ("detail", "Audio generated successfully and stored in artifacts."),
                 ("filename", "podcast.wav")] }

/-- The shapes of synthesis responses the spec lists as failures: no
candidates (absent or empty list), or a first candidate without content, or
content whose parts sequence is absent or empty, or a first part holding no
inline data. -/
def synth_failure_shape (r : Response) : Prop :=
  r.candidates = none ∨ r.candidates = some [] ∨
  ∃ c rest, r.candidates = some (c :: rest) ∧
    (c.content = none ∨
     ∃ ct, c.content = some ct ∧
       (ct.parts = none ∨ ct.parts = some [] ∨
        ∃ p ps, ct.parts = some (p :: ps) ∧ p.inline_data = none))

/-- If a response has one of the failure shapes, the nested extraction
yields no audio payload. -/
theorem extract_audio_none_of_shape (r : Response) (h : synth_failure_shape r) :
    extract_audio r = none := by
  rcases h with h | h | ⟨c, rest, hc, h⟩
  · simp [extract_audio, h]
  · simp [extract_audio, h]
  · rcases h with h | ⟨ct, hct, h⟩
    · simp [extract_audio, hc, h]
    · rcases h with h | h | ⟨p, ps, hp, hpd⟩
      · simp [extract_audio, hc, hct, h]
      · simp [extract_audio, hc, hct, h]
      · simp [extract_audio, hc, hct, hp, hpd]

/-- Claim C1: for every non-empty PCM payload, the WAV container built by
`podcast_speaker` declares exactly 1 channel, 16 bits per sample and a
24000 Hz frame rate in its header, and its data section (everything past the
fixed-size 44-byte header) equals the PCM payload byte-for-byte, so the
original PCM bytes are recoverable by stripping the header. -/
theorem wav_header_roundtrip (pcm : List Nat) (h : pcm ≠ []) :
    wavNumChannels (wavBytes pcm) = 1 ∧
    wavBitsPerSample (wavBytes pcm) = 16 ∧
    wavFrameRate (wavBytes pcm) = 24000 ∧
    wavData (wavBytes pcm) = pcm := by
  refine ⟨?_, ?_, ?_, ?_⟩
  · simp [wavNumChannels, wavBytes, wave_write, u16le, u32le, u16leAt]
  · simp [wavBitsPerSample, wavBytes, wave_write, u16le, u32le, u16leAt]
  · norm_num [wavFrameRate, wavBytes, wave_write, u16le, u32le, u32leAt]
  · simp [wavData, wavBytes, wave_write, u16le, u32le]

/-- Witness for C1 at the concrete payload `[0, 1]`. -/
theorem wav_header_roundtrip_witness :
    ([0, 1] : List Nat) ≠ [] ∧
    (wavNumChannels (wavBytes [0, 1]) = 1 ∧
     wavBitsPerSample (wavBytes [0, 1]) = 16 ∧
     wavFrameRate (wavBytes [0, 1]) = 24000 ∧
     wavData (wavBytes [0, 1]) = [0, 1]) :=
  ⟨by decide, wav_header_roundtrip [0, 1] (by decide)⟩

/-- Claim C2: for every synthesis response in one of the no-payload shapes
(no candidates, first candidate without content, empty parts sequence, or
first part without inline data), `podcast_speaker` returns exactly the
failure dictionary with status "failure" and detail "failed to generate
podcast audio", and makes no artifact-store call. -/
theorem failure_shape_gives_failure_result (script : String)
    (synth : SynthRequest → Response)
    (h : synth_failure_shape (synth (build_request script))) :
    (podcast_speaker script synth).result =
      [("status", "failure"), ("detail", "failed to generate podcast audio")] ∧
    (podcast_speaker script synth).artifacts = [] := by
  have hx := extract_audio_none_of_shape _ h
  simp [podcast_speaker, hx]

/-- Witness for C2: a response with no candidates. -/
theorem failure_shape_gives_failure_result_witness :
    synth_failure_shape ((fun _ => (⟨none⟩ : Response)) (build_request "s")) ∧
    ((podcast_speaker "s" (fun _ => (⟨none⟩ : Response))).result =
      [("status", "failure"), ("detail", "failed to generate podcast audio")] ∧
     (podcast_speaker "s" (fun _ => (⟨none⟩ : Response))).artifacts = []) :=
  ⟨Or.inl rfl,
   failure_shape_gives_failure_result "s" (fun _ => (⟨none⟩ : Response))
     (Or.inl rfl)⟩

/-- A concrete full-shape synthesis response carrying the payload `[0, 1]`,
used to exercise the success path. -/
def respWithAudio : Response :=
  ⟨some [⟨some ⟨some [⟨some ⟨some [0, 1]⟩⟩]⟩⟩]⟩

/-- Claim C3: whenever synthesis yields an audio payload, exactly one
artifact-store call occurs, under filename "podcast.wav" with media type
"audio/wav" and the WAV container as its bytes, and the returned result is
the success dictionary naming that file. -/
theorem success_stores_one_artifact (script : String)
    (synth : SynthRequest → Response) (pcm : List Nat)
    (h : extract_audio (synth (build_request script)) = some pcm) :
    (podcast_speaker script synth).artifacts =
      [⟨"podcast.wav", wavBytes pcm, "audio/wav"⟩] ∧
    (podcast_speaker script synth).result =
      [("status", "success"),
       ("detail", "Audio generated successfully and stored in artifacts."),
       ("filename", "podcast.wav")] := by
  simp [podcast_speaker, h]

/-- Witness for C3 at a concrete response carrying payload `[0, 1]`. -/
theorem success_stores_one_artifact_witness :
    extract_audio ((fun _ => respWithAudio) (build_request "s")) = some [0, 1] ∧
    ((podcast_speaker "s" (fun _ => respWithAudio)).artifacts =
      [⟨"podcast.wav", wavBytes [0, 1], "audio/wav"⟩] ∧
     (podcast_speaker "s" (fun _ => respWithAudio)).result =
      [("status", "success"),
       ("detail", "Audio generated successfully and stored in artifacts."),
       ("filename", "podcast.wav")]) :=
  ⟨rfl, success_stores_one_artifact "s" (fun _ => respWithAudio) [0, 1] rfl⟩

/-- Claim C4: every invocation issues exactly one synthesis request; its
prompt is the transcript embedded after the fixed instructional preamble,
its response modality is audio, and its voice configuration binds
"Speaker 1" and "Speaker 2" to two distinct prebuilt voice identities. -/
theorem one_request_with_fixed_config (script : String)
    (synth : SynthRequest → Response) :
    (podcast_speaker script synth).requests = [build_request script] ∧
    (build_request script).contents = promptPreamble ++ script ∧
    (build_request script).response_modalities = ["AUDIO"] ∧
    (build_request script).speaker_voice_configs =
      [("Speaker 1", "Puck"), ("Speaker 2", "Zephyr")] ∧
    ("Puck" : String) ≠ "Zephyr" := by
  refine ⟨?_, rfl, rfl, rfl, by decide⟩
  cases h : extract_audio (synth (build_request script)) <;>
    simp [podcast_speaker, h]

/-- Claim C5: the WAV container stored by `podcast_speaker` is fully
determined by the PCM payload: two invocations whose synthesis stubs return
the same fixed payload produce byte-identical artifact calls, each holding
exactly the WAV container of that payload. -/
theorem wav_container_deterministic (s₁ s₂ : String)
    (f₁ f₂ : SynthRequest → Response) (pcm : List Nat)
    (h₁ : extract_audio (f₁ (build_request s₁)) = some pcm)
    (h₂ : extract_audio (f₂ (build_request s₂)) = some pcm) :
    (podcast_speaker s₁ f₁).artifacts.map ArtifactCall.data = [wavBytes pcm] ∧
    (podcast_speaker s₁ f₁).artifacts.map ArtifactCall.data =
      (podcast_speaker s₂ f₂).artifacts.map ArtifactCall.data := by
  simp [podcast_speaker, h₁, h₂]

/-- Witness for C5: two invocations with the same transcript and the same
stub payload `[0, 1]`. -/
theorem wav_container_deterministic_witness :
    extract_audio ((fun _ => respWithAudio) (build_request "s")) = some [0, 1] ∧
    ((podcast_speaker "s" (fun _ => respWithAudio)).artifacts.map
        ArtifactCall.data = [wavBytes [0, 1]] ∧
     (podcast_speaker "s" (fun _ => respWithAudio)).artifacts.map
        ArtifactCall.data =
      (podcast_speaker "s" (fun _ => respWithAudio)).artifacts.map
        ArtifactCall.data) :=
  ⟨rfl,
   wav_container_deterministic "s" "s" (fun _ => respWithAudio)
     (fun _ => respWithAudio) [0, 1] rfl rfl⟩

/-- The 200-byte PCM payload of the spec's worked example:
`b"\x00\x01" * 100`. -/
def pcm200 : List Nat := List.flatten (List.replicate 100 [0, 1])

set_option maxRecDepth 4000

/-- Claim C6: for the payload `b"\x00\x01" * 100`, the WAV container starts
with the RIFF tag, carries the WAVE and fmt tags, declares 1 channel,
16 bits per sample and a 24000 Hz frame rate, and ends in a data chunk whose
declared length is 200 and whose bytes equal the payload. -/
theorem wav_example_two_hundred :
    (wavBytes pcm200).take 4 = [0x52, 0x49, 0x46, 0x46] ∧
    ((wavBytes pcm200).drop 8).take 4 = [0x57, 0x41, 0x56, 0x45] ∧
    ((wavBytes pcm200).drop 12).take 4 = [0x66, 0x6D, 0x74, 0x20] ∧
    wavNumChannels (wavBytes pcm200) = 1 ∧
    wavBitsPerSample (wavBytes pcm200) = 16 ∧
    wavFrameRate (wavBytes pcm200) = 24000 ∧
    wavDataLen (wavBytes pcm200) = 200 ∧
    wavData (wavBytes pcm200) = pcm200 ∧
    pcm200.length = 200 := by
  decide

/-- Claim C7: every invocation of `podcast_speaker` returns a result whose
status is either "success" or "failure", and the status is "failure" exactly
when the synthesis response yields no audio payload. -/
theorem always_returns_pipeline_result (script : String)
    (synth : SynthRequest → Response) :
    ((podcast_speaker script synth).result.lookup "status" = some "success" ∨
     (podcast_speaker script synth).result.lookup "status" = some "failure") ∧
    ((podcast_speaker script synth).result.lookup "status" = some "failure" ↔
      extract_audio (synth (build_request script)) = none) := by
  cases h : extract_audio (synth (build_request script)) <;>
    simp [podcast_speaker, h, List.lookup]

/-- Claim C9: when the first part's inline-data object is present but its
`data` field is `None`, `podcast_speaker` behaves exactly as on synthesis
failure: it returns the failure dictionary and makes no artifact call. -/
theorem inline_data_without_bytes_is_failure (script : String)
    (synth : SynthRequest → Response)
    (c : Candidate) (cs : List Candidate) (ct : RespContent)
    (p : RespPart) (ps : List RespPart)
    (h₁ : (synth (build_request script)).candidates = some (c :: cs))
    (h₂ : c.content = some ct)
    (h₃ : ct.parts = some (p :: ps))
    (h₄ : p.inline_data = some ⟨none⟩) :
    (podcast_speaker script synth).result =
      [("status", "failure"), ("detail", "failed to generate podcast audio")] ∧
    (podcast_speaker script synth).artifacts = [] := by
  have hx : extract_audio (synth (build_request script)) = none := by
    simp [extract_audio, h₁, h₂, h₃, h₄]
  simp [podcast_speaker, hx]

/-- A concrete response whose first part has an inline-data object with a
`None` data field. -/
def respDataNone : Response :=
  ⟨some [⟨some ⟨some [⟨some ⟨none⟩⟩]⟩⟩]⟩

/-- Witness for C9 at `respDataNone`. -/
theorem inline_data_without_bytes_is_failure_witness :
    ((fun _ => respDataNone) (build_request "s")).candidates =
      some [⟨some ⟨some [⟨some ⟨none⟩⟩]⟩⟩] ∧
    ((podcast_speaker "s" (fun _ => respDataNone)).result =
      [("status", "failure"), ("detail", "failed to generate podcast audio")] ∧
     (podcast_speaker "s" (fun _ => respDataNone)).artifacts = []) :=
  ⟨rfl,
   inline_data_without_bytes_is_failure "s" (fun _ => respDataNone)
     ⟨some ⟨some [⟨some ⟨none⟩⟩]⟩⟩ [] ⟨some [⟨some ⟨none⟩⟩]⟩
     ⟨some ⟨none⟩⟩ [] rfl rfl rfl rfl⟩

/-- Claim C10: the failure result has exactly the keys status and detail,
the success result exactly status, detail and filename, and a filename key
is present exactly when the status is "success". -/
theorem result_field_shapes (script : String)
    (synth : SynthRequest → Response) :
    ((podcast_speaker script synth).result.map Prod.fst =
        ["status", "detail"] ∨
     (podcast_speaker script synth).result.map Prod.fst =
        ["status", "detail", "filename"]) ∧
    (((podcast_speaker script synth).result.lookup "filename").isSome ↔
      (podcast_speaker script synth).result.lookup "status" = some "success") ∧
    ((podcast_speaker script synth).result.map Prod.fst =
        ["status", "detail", "filename"] ↔
      (podcast_speaker script synth).result.lookup "status" = some "success") := by
  cases h : extract_audio (synth (build_request script)) <;>
    simp [podcast_speaker, h, List.lookup]

/-- Observable behaviour of one fetch-and-dispatch invocation: the URLs the
fetch capability was called on, in order, whether the caller was prompted to
supply URLs, whether audio production was triggered, and the concatenated
text handed on. -/
structure DispatchOutcome where
  fetch_calls : List String
  prompted_for_urls : Bool
  audio_produced : Bool
  combined_text : String
deriving DecidableEq

/-- Modelled from the spec: the fetch-and-dispatch role of the top-level
`agent` is realised by a language model following the agent's instruction
text, so its control flow is not present as code under src/.  Per the spec:
with zero URLs it must not call the fetch capability, must prompt the caller
for URLs, and produces no audio; with one or more URLs it calls the fetch
capability once per URL in the order given and concatenates the fetched
texts in that order before handing them to audio production. -/
def fetch_and_dispatch (urls : List String) (fetchCap : String → String) :
    DispatchOutcome :=
  match urls with
  | [] =>
    { fetch_calls := []
    , prompted_for_urls := true
    , audio_produced := false
    , combined_text := "" }
  | us =>
    { fetch_calls := us
    , prompted_for_urls := false
    , audio_produced := true
    , combined_text := String.join (us.map fetchCap) }

/-- Claim C8: on a request containing zero URLs, the fetch capability is
never invoked, the caller is prompted to supply URLs, and no audio is
produced. -/
theorem zero_urls_no_fetch (fetchCap : String → String) :
    (fetch_and_dispatch [] fetchCap).fetch_calls = [] ∧
    (fetch_and_dispatch [] fetchCap).prompted_for_urls = true ∧
    (fetch_and_dispatch [] fetchCap).audio_produced = false :=
  ⟨rfl, rfl, rfl⟩
